import Mathlib

/-!
Verification of the FastAPI Cafe Menu App Admin Dashboard backend against its
design specification.

The Python sources are shallowly embedded: SQLAlchemy rows become Lean
structures, the database session becomes an explicit `DBState` record, each
endpoint or CRUD coroutine becomes a pure function
`DBState → args → Except HttpError (DBState × result)`, and Python `Decimal`
arithmetic becomes exact rational arithmetic.

Conventions used throughout:
- `Decimal(str(x)).quantize(Decimal(c01))` with the default rounding mode is
  ROUND_HALF_EVEN; it is embedded as `quantize2`.
- Stored SQLAlchemy `float` columns are embedded as the exact rational value
  of the decimal they were converted from.  This is faithful for every value
  that flows through the modelled pipelines: a decimal with at most 10
  significant digits converts to the nearest binary64 double, and the shortest
  round-trip repr used by `str(float)` returns exactly that decimal again, so
  `Decimal(str(float(d))) == d` for all such `d`.
- JSON number literals arriving from a client are parsed by the server into
  binary64 doubles; where a claim depends on a concrete literal the exact
  rational value of the corresponding double is spelled out.
- Randomly generated identifiers (uuid4 primary keys, reset-token strings,
  generated passwords) are taken as explicit arguments of the embedded
  functions.
-/

namespace CafeApp

/-- HTTP-level error taxonomy of the service.  `unprocessable` is the
FastAPI/pydantic request-validation failure (HTTP 422), raised before a route
body runs; `internal` stands for an uncaught Python exception surfacing as
HTTP 500. -/
inductive HttpError where
  | badRequest : String → HttpError
  | unauthorized : String → HttpError
  | forbidden : String → HttpError
  | notFound : String → HttpError
  | unprocessable : String → HttpError
  | internal : String → HttpError
deriving DecidableEq, Repr

/-! ### Decimal arithmetic

Python `Decimal.quantize` uses ROUND_HALF_EVEN by default, and Python
`round(x, n)` also rounds half to even.  Both are embedded over exact
rationals. -/

/-- Round a rational to the nearest integer, ties to the even integer
(Python and IEEE default rounding). -/
def roundHalfEven (x : ℚ) : ℤ :=
  let f : ℤ := ⌊x⌋
  let r : ℚ := x - f
  if r < 1/2 then f
  else if 1/2 < r then f + 1
  else if f % 2 = 0 then f else f + 1

/-- `Decimal(str(p)).quantize(Decimal(c01))`: round to two decimal places,
half to even. -/
def quantize2 (x : ℚ) : ℚ :=
  (roundHalfEven (x * 100) : ℚ) / 100

/-- Python `round(x, 1)` composed with the float-to-Decimal conversion
`Decimal(str(x))`: round to one decimal place, half to even.  (CPython rounds
a float to the double nearest the correctly rounded one-decimal result, and
the shortest-repr `str` then yields that one-decimal literal back, so the
composite is exactly rounding to a multiple of 1/10.) -/
def pyRound1 (x : ℚ) : ℚ :=
  (roundHalfEven (x * 10) : ℚ) / 10

/-- A rational has at most `n` decimal places when scaling by `10^n` clears
the denominator. -/
def hasDecimalPlaces (n : ℕ) (x : ℚ) : Bool :=
  (x * (10 : ℚ) ^ n).den == 1

/-- pydantic `condecimal(max_digits=10, decimal_places=2)`: at most two
decimal places and at most ten significant digits in total. -/
def condecimal_10_2 (x : ℚ) : Bool :=
  hasDecimalPlaces 2 x && (x * 100).num.natAbs < 10 ^ 10

/-! ### Entities (app/database/models.py) -/

/-- Row of table `users`.  The uuid primary key is embedded as a natural
number. -/
structure User where
  id : ℕ
  email : String
  hashed_password : String
  role : String
  approved : Bool
deriving DecidableEq, Repr

/-- Row of table `profiles`. -/
structure UserProfile where
  id : ℕ
  user_id : ℕ
  restaurant_id : Option ℕ
  restaurant_name : Option String
  restaurant_reviews : Option String
  restaurant_photo : Option String
  telegram : Option String
  rating : Option ℚ
  restaurant_currency : Option String
  tables_amount : ℤ
deriving DecidableEq, Repr

/-- Row of table `restaurants`. -/
structure Restaurant where
  id : ℕ
  name : String
  photo : Option String
  rating : ℚ
  currency : String
  tables_amount : ℤ
deriving DecidableEq, Repr

/-- Row of table `categories`. -/
structure Category where
  id : ℕ
  name : String
deriving DecidableEq, Repr

/-- The JSON `extra` column of a dish: option name mapped to a description
and a price. -/
abbrev Extra := List (String × String × ℚ)

/-- Row of table `dishes`.  `price` is a float column holding a two-decimal
value (see the header note on float embedding). -/
structure Dish where
  id : ℕ
  restaurant_id : ℕ
  category_id : ℕ
  name : String
  photo : Option String
  description : String
  price : ℚ
  extra : Option Extra
deriving DecidableEq, Repr

/-- Row of table `reset_tokens`; `expiry_time` is a UTC timestamp in seconds,
defaulted at insertion to creation time plus one hour. -/
structure ResetToken where
  token : String
  user_id : ℕ
  expiry_time : ℤ
deriving DecidableEq, Repr

/-- The persistent state owned by the storage engine, plus the
photo-storage namespaces (one directory per restaurant id) kept on disk. -/
structure DBState where
  users : List User
  profiles : List UserProfile
  restaurants : List Restaurant
  categories : List Category
  dishes : List Dish
  reset_tokens : List ResetToken
  photoNamespaces : List ℕ
deriving DecidableEq, Repr

/-! ### Shared lookups -/

def findUserByEmail (db : DBState) (email : String) : Option User :=
  db.users.find? (fun u => u.email == email)

def findUserById (db : DBState) (uid : ℕ) : Option User :=
  db.users.find? (fun u => u.id == uid)

/-- `crud_get_user_profile_by_email`: join of `profiles` with `users` on the
user id, filtered by email. -/
def crud_get_user_profile_by_email (db : DBState) (email : String) :
    Option UserProfile :=
  match findUserByEmail db email with
  | none => none
  | some u => db.profiles.find? (fun p => p.user_id == u.id)

/-- `crud_get_restaurant_by_id`. -/
def crud_get_restaurant_by_id (db : DBState) (restaurant_id : ℕ) :
    Option Restaurant :=
  db.restaurants.find? (fun r => r.id == restaurant_id)

/-- `crud_get_category_by_id`. -/
def crud_get_category_by_id (db : DBState) (category_id : ℕ) :
    Option Category :=
  db.categories.find? (fun c => c.id == category_id)

/-- `crud_get_dish`. -/
def crud_get_dish (db : DBState) (dish_id : ℕ) : Option Dish :=
  db.dishes.find? (fun d => d.id == dish_id)

/-- `crud_get_next_dish_id`: `select(func.max(Dish.id))` plus one, or 1 on an
empty table. -/
def crud_get_next_dish_id (db : DBState) : ℕ :=
  match (db.dishes.map Dish.id).max? with
  | none => 1
  | some m => m + 1

/-- Autoincrement id assignment for the `restaurants` table. -/
def nextRestaurantId (db : DBState) : ℕ :=
  match (db.restaurants.map Restaurant.id).max? with
  | none => 1
  | some m => m + 1

/-- `crud_get_email_for_dish`: walk Dish → Restaurant → UserProfile → User
and return the owning email. -/
def crud_get_email_for_dish (db : DBState) (dish_id : ℕ) : Option String :=
  match crud_get_dish db dish_id with
  | none => none
  | some d =>
    match db.profiles.find? (fun p => p.restaurant_id == some d.restaurant_id) with
    | none => none
    | some p =>
      match findUserById db p.user_id with
      | none => none
      | some u => some u.email

/-! ### Aggregate lifecycle: registration (app/database/crud.py,
`crud_create_user_and_profile`, lines 140-184) -/

/-- `User.validate_role` (models.py): the SQLAlchemy attribute validator that
fires whenever the role column is assigned; any value outside the two
enumerated roles raises ValueError. -/
def validate_role (role : String) : Except String String :=
  if role == "superuser" || role == "restaurant" then .ok role
  else .error "Role must be superuser or restaurant"

/-- `UserCreate.validate_role` (schemas.py): the pydantic field validator of
the creation schema, enforcing the same enumeration at request-parsing
time. -/
def UserCreate.validate_role (role : String) : Except HttpError String :=
  if role == "superuser" || role == "restaurant" then .ok role
  else .error (.unprocessable "Role must be superuser or restaurant")

/-- `crud_create_user_and_profile(db, email, hashed_password, role)`.
Checks the email for duplicates before any write, creates the User (approved
exactly for superusers), and, for the restaurant role, creates the
UserProfile with tables_amount 0, the default Restaurant, backfills
`profile.restaurant_id` and provisions the photo namespace of the new
restaurant id.  The random uuid primary keys of the user and profile rows are
passed in as `newUserId` and `newProfileId`.  A ValueError escaping the
SQLAlchemy role validator surfaces as HTTP 500. -/
def crud_create_user_and_profile (db : DBState) (email hashed_password role : String)
    (newUserId newProfileId : ℕ) : Except HttpError (DBState × User) :=
  match findUserByEmail db email with
  | some _ => .error (.badRequest "Email already registered")
  | none =>
    match validate_role role with
    | .error msg => .error (.internal msg)
    | .ok _ =>
      let approved := role == "superuser"
      let user : User :=
        { id := newUserId, email := email, hashed_password := hashed_password,
          role := role, approved := approved }
      let db1 : DBState := { db with users := db.users ++ [user] }
      if role == "restaurant" then
        let rid := nextRestaurantId db1
        let profile : UserProfile :=
          { id := newProfileId, user_id := newUserId, restaurant_id := some rid,
            restaurant_name := none, restaurant_reviews := none,
            restaurant_photo := none, telegram := none, rating := none,
            restaurant_currency := none, tables_amount := 0 }
        let restaurant : Restaurant :=
          { id := rid, name := "Default Restaurant Name", photo := none,
            rating := 0, currency := "USD", tables_amount := 0 }
        let db2 : DBState :=
          { db1 with
            profiles := db1.profiles ++ [profile],
            restaurants := db1.restaurants ++ [restaurant],
            photoNamespaces :=
              if db1.photoNamespaces.contains rid then db1.photoNamespaces
              else db1.photoNamespaces ++ [rid] }
        .ok (db2, user)
      else
        .ok (db1, user)

/-- `register_user` (app/routers/auth.py): the registration endpoint invokes
the aggregate creation with the fixed role "restaurant" (the
already-authenticated guard and password hashing happen before and do not
touch the database). -/
def register_user (db : DBState) (email hashed_password : String)
    (newUserId newProfileId : ℕ) : Except HttpError (DBState × User) :=
  crud_create_user_and_profile db email hashed_password "restaurant" newUserId newProfileId

/-! ### Menu management (app/database/crud.py and app/routers/dishes.py) -/

/-- `format_extra_prices`: independently normalize every extra-option price
to two decimals on read. -/
def format_extra_prices (extra : Option Extra) : Option Extra :=
  extra.map (List.map (fun e => (e.1, e.2.1, quantize2 e.2.2)))

/-- `crud_create_dish`: validate restaurant and category existence, assign
max-id-plus-one, normalize the price to two decimals, insert. -/
def crud_create_dish (db : DBState) (restaurant_id category_id : ℕ)
    (name description : String) (price : ℚ) (photo : Option String)
    (extra : Option Extra) : Except String (DBState × Dish) :=
  match crud_get_restaurant_by_id db restaurant_id with
  | none => .error "Restaurant not found"
  | some _ =>
    match crud_get_category_by_id db category_id with
    | none => .error "Category not found"
    | some _ =>
      let next_id := crud_get_next_dish_id db
      let dish : Dish :=
        { id := next_id, restaurant_id := restaurant_id,
          category_id := category_id, name := name, photo := photo,
          description := description, price := quantize2 price, extra := extra }
      .ok ({ db with dishes := db.dishes ++ [dish] }, dish)

/-- The field-application chain of `crud_update_dish`: only provided fields
are applied, the price is normalized to two decimals, and the restaurant_id
field is applied only when the current user is a superuser. -/
def applyDishPatch (dish : Dish) (current_user : User)
    (restaurant_id : Option ℕ) (name description : Option String)
    (price : Option ℚ) (photo : Option String) (extra : Option Extra) : Dish :=
  let d1 := match name with | some v => { dish with name := v } | none => dish
  let d2 := match description with | some v => { d1 with description := v } | none => d1
  let d3 := match price with | some v => { d2 with price := quantize2 v } | none => d2
  let d4 := match photo with | some v => { d3 with photo := some v } | none => d3
  let d5 := match extra with | some v => { d4 with extra := some v } | none => d4
  match restaurant_id with
  | some rid =>
    if current_user.role == "superuser" then { d5 with restaurant_id := rid } else d5
  | none => d5

/-- `crud_update_dish`: load the dish (ValueError when absent), apply the
patch, store the updated row. -/
def crud_update_dish (db : DBState) (dish_id : ℕ) (current_user : User)
    (restaurant_id : Option ℕ) (name description : Option String)
    (price : Option ℚ) (photo : Option String) (extra : Option Extra) :
    Except String (DBState × Dish) :=
  match crud_get_dish db dish_id with
  | none => .error "Dish not found"
  | some dish =>
    let d6 := applyDishPatch dish current_user restaurant_id name description
      price photo extra
    .ok ({ db with
            dishes := db.dishes.map (fun d => if d.id == dish_id then d6 else d) },
         d6)

/-- `crud_delete_dish`: hard delete of the row with the given primary key. -/
def crud_delete_dish (db : DBState) (dish_id : ℕ) : Except String DBState :=
  match crud_get_dish db dish_id with
  | none => .error "Dish not found"
  | some _ => .ok { db with dishes := db.dishes.filter (fun d => d.id != dish_id) }

/-- Request body of the create endpoint (schemas.py `DishCreate`).  The
pydantic price constraint `condecimal(max_digits=10, decimal_places=2)` is
checked by `DishCreate.validate` below before the route body runs. -/
structure DishCreate where
  email : String
  restaurant_id : ℕ
  category_id : ℕ
  name : String
  description : String
  price : ℚ
  photo : Option String
  extra : Option Extra
deriving DecidableEq, Repr

/-- Request-body validation performed by FastAPI/pydantic for `DishCreate`:
a price with more than two decimal places or more than ten digits is rejected
with HTTP 422 before the route body runs. -/
def DishCreate.validate (d : DishCreate) : Except HttpError DishCreate :=
  if condecimal_10_2 d.price then .ok d
  else .error (.unprocessable "decimal_places")

/-- Request body of the update endpoint (schemas.py `DishUpdate`). -/
structure DishUpdate where
  email : String
  dish_id : ℕ
  restaurant_id : Option ℕ
  name : Option String
  description : Option String
  price : Option ℚ
  photo : Option String
  extra : Option Extra
deriving DecidableEq, Repr

/-- pydantic validation for `DishUpdate`: the optional price carries the same
two-decimal constraint. -/
def DishUpdate.validate (d : DishUpdate) : Except HttpError DishUpdate :=
  match d.price with
  | none => .ok d
  | some p => if condecimal_10_2 p then .ok d else .error (.unprocessable "decimal_places")

/-- Request body of the delete endpoint (schemas.py `DishDelete`). -/
structure DishDelete where
  email : String
  dish_id : ℕ
deriving DecidableEq, Repr

/-- The restaurant-id selection inside `create_new_dish`: a superuser uses
the restaurant_id supplied in the payload; a restaurant-role caller uses the
restaurant linked to their own profile, failing with HTTP 400 when the
profile is missing or its restaurant link is absent (Python truthiness:
`not profile.restaurant_id` also holds for 0). -/
def pick_restaurant_id (db : DBState) (current_user : User) (dish : DishCreate) :
    Except HttpError ℕ :=
  if current_user.role == "superuser" then .ok dish.restaurant_id
  else
    match crud_get_user_profile_by_email db current_user.email with
    | none => .error (.badRequest "Restaurant ID not found for the user profile.")
    | some profile =>
      match profile.restaurant_id with
      | none => .error (.badRequest "Restaurant ID not found for the user profile.")
      | some rid =>
        if rid == 0 then .error (.badRequest "Restaurant ID not found for the user profile.")
        else .ok rid

/-- `create_new_dish` (dishes.py, lines 134-191): guard on
`current_user.role == superuser or current_user.email == dish.email`; the
restaurant id comes from `pick_restaurant_id`; ValueError from the CRUD
layer maps to HTTP 400. -/
def create_new_dish (db : DBState) (current_user : User) (dish : DishCreate) :
    Except HttpError (DBState × Dish) :=
  if current_user.role == "superuser" || current_user.email == dish.email then
    match pick_restaurant_id db current_user dish with
    | .error e => .error e
    | .ok restaurant_id =>
      match crud_create_dish db restaurant_id dish.category_id dish.name
          dish.description dish.price dish.photo dish.extra with
      | .error msg => .error (.badRequest msg)
      | .ok res => .ok res
  else
    .error (.forbidden "You do not have permission to create a dish for this email.")

/-- `update_dish_route` (dishes.py, lines 194-241): guard on
`current_user.role == superuser or current_user.email == dish.email` where
`dish.email` is the email string supplied in the request payload; ValueError
from the CRUD layer maps to HTTP 404. -/
def update_dish_route (db : DBState) (current_user : User) (dish : DishUpdate) :
    Except HttpError (DBState × Dish) :=
  if current_user.role == "superuser" || current_user.email == dish.email then
    match crud_update_dish db dish.dish_id current_user dish.restaurant_id
        dish.name dish.description dish.price dish.photo dish.extra with
    | .error msg => .error (.notFound msg)
    | .ok res => .ok res
  else
    .error (.forbidden "You do not have permission to update a dish for this email.")

/-- `delete_dish` (dishes.py, lines 244-272): guard on
`current_user.role == superuser or current_user.email == dish.email` where
`dish.email` is the email string supplied in the request payload; ValueError
from the CRUD layer maps to HTTP 404. -/
def delete_dish (db : DBState) (current_user : User) (dish : DishDelete) :
    Except HttpError DBState :=
  if current_user.role == "superuser" || current_user.email == dish.email then
    match crud_delete_dish db dish.dish_id with
    | .error msg => .error (.notFound msg)
    | .ok db1 => .ok db1
  else
    .error (.forbidden "You do not have permission to delete a dish for this email.")

/-- `get_dishes_by_email` (dishes.py, lines 275-324), read path of the menu:
list all dishes of the restaurant linked to the profile of the given email,
with prices normalized to two decimals and extra prices normalized
independently. -/
def get_dishes_by_email (db : DBState) (current_user : User) (email : String) :
    Except HttpError (List Dish) :=
  if current_user.role == "superuser" || current_user.email == email then
    match crud_get_user_profile_by_email db email with
    | none => .error (.notFound "User profile not found")
    | some profile =>
      match profile.restaurant_id with
      | none => .error (.notFound "Restaurant not found for the user profile")
      | some rid =>
        match crud_get_restaurant_by_id db rid with
        | none => .error (.notFound "Restaurant not found for the user profile")
        | some restaurant =>
          .ok ((db.dishes.filter (fun d => d.restaurant_id == restaurant.id)).map
            (fun d => { d with price := quantize2 d.price,
                               extra := format_extra_prices d.extra }))
  else
    .error (.forbidden "You do not have permission to view these dishes.")

/-! ### Credential service (app/utils/security.py) -/

/-- The claims carried by a decoded bearer token. -/
structure TokenClaims where
  sub : Option String
  role : Option String
deriving DecidableEq, Repr

/-- A presented bearer token, abstracted to exactly what `jwt.decode`
inspects: whether the signature verifies, whether the expiry claim has
passed, and the claim payload. -/
structure BearerToken where
  sigValid : Bool
  expired : Bool
  claims : TokenClaims
deriving DecidableEq, Repr

/-- `jwt.decode(token, SECRET_KEY, algorithms=[ALGORITHM])`: raises a
PyJWTError (modelled as `.error`) when the signature is invalid or the token
is expired, otherwise yields the payload. -/
def jwt_decode (t : BearerToken) : Except Unit TokenClaims :=
  if t.sigValid && !t.expired then .ok t.claims else .error ()

/-- `get_current_user` (security.py, lines 75-98): decode the token — a
PyJWTError or a missing subject claim yields HTTP 403 with detail
"Invalid authentication credentials" — then load the user by the subject
email; an absent user yields HTTP 401 with detail
"Could not validate credentials". -/
def get_current_user (db : DBState) (t : BearerToken) : Except HttpError User :=
  match jwt_decode t with
  | .error _ => .error (.forbidden "Invalid authentication credentials")
  | .ok payload =>
    match payload.sub with
    | none => .error (.forbidden "Invalid authentication credentials")
    | some email =>
      match findUserByEmail db email with
      | none => .error (.unauthorized "Could not validate credentials")
      | some user => .ok user

/-- A protected endpoint: FastAPI resolves the `get_current_user` dependency
first, so the handler body (and with it every authorization check it
contains) runs only after token resolution has produced a user. -/
def protectedCall {α : Type} (db : DBState) (t : BearerToken)
    (handler : User → Except HttpError α) : Except HttpError α :=
  match get_current_user db t with
  | .error e => .error e
  | .ok user => handler user

/-! ### Password recovery flow (app/routers/emails.py) -/

/-- One hour, in seconds: the fixed expiry window of a reset token. -/
def resetTokenTTL : ℤ := 3600

/-- `request_password_reset` (emails.py, lines 83-118): look the user up by
email (404 when absent), then persist a fresh random token whose
`expiry_time` column defaults to creation time plus one hour.  The random
token string is passed in as `token`. -/
def request_password_reset (db : DBState) (email token : String) (now : ℤ) :
    Except HttpError DBState :=
  match findUserByEmail db email with
  | none => .error (.notFound "User not found")
  | some user =>
    .ok { db with
          reset_tokens := db.reset_tokens ++
            [{ token := token, user_id := user.id,
               expiry_time := now + resetTokenTTL }] }

/-- `reset_password` (emails.py, lines 121-170): an unknown token yields
HTTP 400 "Invalid token"; a known token whose expiry has passed is deleted
(this deletion is committed even though the request fails) and yields
HTTP 400 "Token has expired"; otherwise the owning user gets the freshly
generated password hash and the token is deleted.  The function returns the
resulting storage state together with the outcome.  Deleting a row of
`reset_tokens` removes every row with that primary-key string (the token
column is the primary key, so at most one exists).  The randomly generated
password hash is passed in as `new_hashed_password`. -/
def reset_password (db : DBState) (token : String) (now : ℤ)
    (new_hashed_password : String) : DBState × Except HttpError String :=
  match db.reset_tokens.find? (fun rt => rt.token == token) with
  | none => (db, .error (.badRequest "Invalid token"))
  | some rt =>
    if rt.expiry_time < now then
      ({ db with reset_tokens := db.reset_tokens.filter (fun r => r.token != token) },
       .error (.badRequest "Token has expired"))
    else
      match findUserById db rt.user_id with
      | none => (db, .error (.notFound "User not found"))
      | some user =>
        ({ db with
           users := db.users.map (fun u =>
             if u.id == rt.user_id then { u with hashed_password := new_hashed_password } else u),
           reset_tokens := db.reset_tokens.filter (fun r => r.token != token) },
         .ok user.email)

/-- Request body of the change-password endpoint (schemas.py
`ChangePasswordRequest`): exactly two fields, `email` and `new_password`.
The variant carrying an `old_password` field exists only as commented-out
code. -/
structure ChangePasswordRequest where
  email : String
  new_password : String
deriving DecidableEq, Repr

/-- Python attribute access `request.old_password` on a
`ChangePasswordRequest` instance: the pydantic model declares no such field,
so the access raises AttributeError, which surfaces as HTTP 500. -/
def ChangePasswordRequest.getattr_old_password (_ : ChangePasswordRequest) :
    Except HttpError String :=
  .error (.internal "AttributeError: old_password")

/-- `change_password` (emails.py, lines 173-212): only the user themselves
or a superuser passes the guard (403 otherwise); the target user is loaded
(404 when absent); the endpoint then reads `request.old_password` to verify
the old password, and stores the hash of the new password.  The password
hashing is abstracted by `hash` (bcrypt of the plaintext). -/
def change_password (db : DBState) (current_user : User)
    (request : ChangePasswordRequest) (hash : String → String) :
    Except HttpError (DBState × String) :=
  if current_user.email != request.email && current_user.role != "superuser" then
    .error (.forbidden "Not authorized to change this password")
  else
    match findUserByEmail db request.email with
    | none => .error (.notFound "User not found")
    | some user =>
      match request.getattr_old_password with
      | .error e => .error e
      | .ok old_password =>
        if !(user.hashed_password == hash old_password) then
          .error (.badRequest "Incorrect old password")
        else
          .ok ({ db with
                 users := db.users.map (fun u =>
                   if u.id == user.id then { u with hashed_password := hash request.new_password } else u) },
               "Password changed successfully")

/-! ### Restaurant profile update (app/routers/restaurants.py and
app/database/crud.py, `crud_update_user_profile_by_email`) -/

/-- Request body of the profile-update endpoint (schemas.py
`UserProfileUpdate`), after pydantic parsing.  `none` means the field was not
supplied (`exclude_unset=True`; an explicit null is not distinguished). -/
structure UserProfileUpdate where
  restaurant_name : Option String
  restaurant_reviews : Option String
  restaurant_photo : Option String
  telegram : Option String
  rating : Option ℚ
  restaurant_currency : Option String
  tables_amount : Option ℤ
deriving DecidableEq, Repr

/-- `UserProfileUpdate.validate_rating` (schemas.py, mode before): when a
rating is supplied it is replaced by `round(rating, 1)` before any other
validation; all other fields pass through. -/
def UserProfileUpdate.validate_rating (u : UserProfileUpdate) : UserProfileUpdate :=
  { u with rating := u.rating.map pyRound1 }

/-- The setattr loop of `crud_update_user_profile_by_email`: apply the
supplied fields onto the profile row. -/
def applyProfilePatch (profile : UserProfile) (pu : UserProfileUpdate) :
    UserProfile :=
  let p1 := match pu.restaurant_name with | some v => { profile with restaurant_name := some v } | none => profile
  let p2 := match pu.restaurant_reviews with | some v => { p1 with restaurant_reviews := some v } | none => p1
  let p3 := match pu.restaurant_photo with | some v => { p2 with restaurant_photo := some v } | none => p2
  let p4 := match pu.telegram with | some v => { p3 with telegram := some v } | none => p3
  let p5 := match pu.rating with | some v => { p4 with rating := some v } | none => p4
  let p6 := match pu.restaurant_currency with | some v => { p5 with restaurant_currency := some v } | none => p5
  match pu.tables_amount with | some v => { p6 with tables_amount := v } | none => p6

/-- The dual-write block of `crud_update_user_profile_by_email`: propagate
the supplied restaurant-owned fields onto the linked Restaurant row.  The
reviews branch assigns `restaurant.reviews`, an attribute that is not a
column of the Restaurant model, so it persists nothing. -/
def applyRestaurantPatch (r : Restaurant) (pu : UserProfileUpdate) :
    Restaurant :=
  let r1 := match pu.restaurant_name with | some v => { r with name := v } | none => r
  let r2 := match pu.restaurant_reviews with | some _ => r1 | none => r1
  let r3 := match pu.restaurant_photo with | some v => { r2 with photo := some v } | none => r2
  let r4 := match pu.rating with | some v => { r3 with rating := v } | none => r3
  let r5 := match pu.restaurant_currency with | some v => { r4 with currency := v } | none => r4
  match pu.tables_amount with | some v => { r5 with tables_amount := v } | none => r5

/-- `crud_update_user_profile_by_email`: apply the supplied fields onto the
profile row and, when the profile has a linked restaurant, propagate the
restaurant-owned fields onto the Restaurant row as well (dual write). -/
def crud_update_user_profile_by_email (db : DBState) (email : String)
    (pu : UserProfileUpdate) : Option (DBState × UserProfile) :=
  match crud_get_user_profile_by_email db email with
  | none => none
  | some profile =>
    let p7 := applyProfilePatch profile pu
    let db1 : DBState :=
      { db with profiles := db.profiles.map (fun p => if p.id == profile.id then p7 else p) }
    match profile.restaurant_id with
    | none => some (db1, p7)
    | some rid =>
      let db2 : DBState :=
        { db1 with restaurants := db1.restaurants.map (fun r =>
            if r.id == rid then applyRestaurantPatch r pu else r) }
      some (db2, p7)

/-- `update_profile_by_email` (restaurants.py, lines 85-127): guard on
superuser or self; when a rating survived pydantic parsing it is range
checked against [0.0, 9.9] (HTTP 400 "Rating value out of range" otherwise);
then the CRUD update runs (404 when the profile is absent). -/
def update_profile_by_email (db : DBState) (current_user : User) (email : String)
    (profile_update : UserProfileUpdate) : Except HttpError (DBState × UserProfile) :=
  if current_user.role == "superuser" || current_user.email == email then
    let profile_data := profile_update.validate_rating
    match profile_data.rating with
    | some rating =>
      if rating < 0 ∨ (99 : ℚ)/10 < rating then
        .error (.badRequest "Rating value out of range")
      else
        match crud_update_user_profile_by_email db email profile_data with
        | none => .error (.notFound "Profile not found")
        | some res => .ok res
    | none =>
      match crud_update_user_profile_by_email db email profile_data with
      | none => .error (.notFound "Profile not found")
      | some res => .ok res
  else
    .error (.forbidden "Access denied")

/-- The JSON encoder of `UserProfileResponse` for the rating field: a
Decimal is rendered with exactly one digit after the point.  Defined for
non-negative multiples of 1/10, which is what the rating column holds. -/
def formatRating1 (q : ℚ) : String :=
  let n := (q * 10).num.toNat
  toString (n / 10) ++ "." ++ toString (n % 10)

/-! ### Concrete fixtures used to evaluate the endpoints on explicit
states -/

/-- The exact rational value of the binary64 double produced by parsing the
JSON literal 9.95 (it lies strictly below 9.95). -/
def json9_95 : ℚ := 2800676018271027 / 2 ^ 48

/-- The exact rational value of the binary64 double produced by parsing the
JSON literal 9.9. -/
def json9_9 : ℚ := 5573204538870989 / 2 ^ 49

/-- The exact rational value of the binary64 double produced by parsing the
JSON literal -0.1. -/
def jsonNeg0_1 : ℚ := -3602879701896397 / 2 ^ 55

def suUser : User :=
  { id := 1, email := "admin@x", hashed_password := "h0", role := "superuser",
    approved := true }

def aliceUser : User :=
  { id := 2, email := "alice@x", hashed_password := "h1", role := "restaurant",
    approved := true }

def bobUser : User :=
  { id := 3, email := "bob@x", hashed_password := "h2", role := "restaurant",
    approved := true }

def aliceProfile : UserProfile :=
  { id := 1, user_id := 2, restaurant_id := some 1, restaurant_name := none,
    restaurant_reviews := none, restaurant_photo := none, telegram := none,
    rating := none, restaurant_currency := none, tables_amount := 0 }

def bobProfile : UserProfile :=
  { id := 2, user_id := 3, restaurant_id := some 2, restaurant_name := none,
    restaurant_reviews := none, restaurant_photo := none, telegram := none,
    rating := none, restaurant_currency := none, tables_amount := 0 }

def restaurant1 : Restaurant :=
  { id := 1, name := "Default Restaurant Name", photo := none, rating := 0,
    currency := "USD", tables_amount := 0 }

def restaurant2 : Restaurant :=
  { id := 2, name := "Default Restaurant Name", photo := none, rating := 0,
    currency := "USD", tables_amount := 0 }

/-- A dish of restaurant 2 (owned by bob). -/
def bobDish : Dish :=
  { id := 7, restaurant_id := 2, category_id := 1, name := "Soup",
    photo := none, description := "of the day", price := 5, extra := none }

/-- Two restaurant owners, each with a profile-linked restaurant; the only
dish belongs to the restaurant of bob. -/
def exDB : DBState :=
  { users := [suUser, aliceUser, bobUser],
    profiles := [aliceProfile, bobProfile],
    restaurants := [restaurant1, restaurant2],
    categories := [{ id := 1, name := "Mains" }],
    dishes := [bobDish],
    reset_tokens := [],
    photoNamespaces := [1, 2] }

/-- `exDB` with one outstanding reset token for alice, expiring at time
4600 = 1000 + 3600. -/
def exDBtok : DBState :=
  { exDB with reset_tokens := [{ token := "tok1", user_id := 2, expiry_time := 4600 }] }

/-- An empty storage state. -/
def emptyDB : DBState :=
  { users := [], profiles := [], restaurants := [], categories := [],
    dishes := [], reset_tokens := [], photoNamespaces := [] }

/-! ## Arithmetic helper lemmas -/

theorem roundHalfEven_intCast (n : ℤ) : roundHalfEven (n : ℚ) = n := by
  simp only [roundHalfEven, Int.floor_intCast, sub_self]
  norm_num

theorem roundHalfEven_eq_of_lt_half (x : ℚ) (n : ℤ) (h1 : (n : ℚ) ≤ x)
    (h2 : x < n + 1/2) : roundHalfEven x = n := by
  have hf : ⌊x⌋ = n := Int.floor_eq_iff.mpr ⟨h1, by linarith⟩
  simp only [roundHalfEven, hf]
  rw [if_pos (by linarith : x - (n : ℚ) < 1/2)]

theorem roundHalfEven_eq_of_half_lt (x : ℚ) (n : ℤ) (h1 : (n : ℚ) - 1/2 < x)
    (h2 : x < n) : roundHalfEven x = n := by
  have hf : ⌊x⌋ = n - 1 := by
    apply Int.floor_eq_iff.mpr
    constructor
    · push_cast
      linarith
    · push_cast
      linarith
  have hA : ¬ (x - ((n - 1 : ℤ) : ℚ) < 1/2) := by push_cast; linarith
  have hB : (1 : ℚ)/2 < x - ((n - 1 : ℤ) : ℚ) := by push_cast; linarith
  simp only [roundHalfEven, hf]
  rw [if_neg hA, if_pos hB]
  omega

theorem quantize2_eq_self (q : ℚ) (h : hasDecimalPlaces 2 q = true) :
    quantize2 q = q := by
  have hden : (q * 100).den = 1 := by
    unfold hasDecimalPlaces at h
    norm_num at h
    exact h
  have hnum : ((q * 100).num : ℚ) = q * 100 := (Rat.den_eq_one_iff _).mp hden
  unfold quantize2
  rw [← hnum, roundHalfEven_intCast, hnum]
  exact mul_div_cancel_right₀ q (by norm_num)

theorem quantize2_hasDecimalPlaces (q : ℚ) :
    hasDecimalPlaces 2 (quantize2 q) = true := by
  unfold quantize2 hasDecimalPlaces
  have hc : ((roundHalfEven (q * 100) : ℤ) : ℚ) / 100 * 10 ^ 2 =
      ((roundHalfEven (q * 100) : ℤ) : ℚ) := by
    norm_num
  rw [hc, Rat.den_intCast]
  rfl

theorem quantize2_idem (q : ℚ) : quantize2 (quantize2 q) = quantize2 q :=
  quantize2_eq_self _ (quantize2_hasDecimalPlaces q)

theorem condecimal_10_2_hasDecimalPlaces (q : ℚ) (h : condecimal_10_2 q = true) :
    hasDecimalPlaces 2 q = true := by
  unfold condecimal_10_2 at h
  exact (Bool.and_eq_true _ _).mp h |>.1

theorem pyRound1_json9_95 : pyRound1 json9_95 = 99/10 := by
  unfold pyRound1
  rw [roundHalfEven_eq_of_lt_half (json9_95 * 10) 99
    (by unfold json9_95; norm_num) (by unfold json9_95; norm_num)]
  norm_num

theorem pyRound1_json9_9 : pyRound1 json9_9 = 99/10 := by
  unfold pyRound1
  rw [roundHalfEven_eq_of_lt_half (json9_9 * 10) 99
    (by unfold json9_9; norm_num) (by unfold json9_9; norm_num)]
  norm_num

theorem pyRound1_jsonNeg0_1 : pyRound1 jsonNeg0_1 = -1/10 := by
  unfold pyRound1
  rw [roundHalfEven_eq_of_half_lt (jsonNeg0_1 * 10) (-1)
    (by unfold jsonNeg0_1; norm_num) (by unfold jsonNeg0_1; norm_num)]
  norm_num

/-! ## Claim C1

The claim states that a restaurant-role actor attempting update_dish or
delete_dish against a dish of another restaurant fails with Forbidden.  In
the code the guard of both endpoints compares the actor email only with the
email string supplied in the request payload and never consults the dish
ownership, so the attempt succeeds whenever the actor writes their own email
into the payload. -/

/-- Claim C1, counterexample: alice (restaurant role) deletes dish 7, which
belongs to the restaurant of bob, by supplying her own email in the payload;
the call succeeds instead of failing with Forbidden. -/
theorem C1_counterexample :
    aliceUser.role = "restaurant" ∧
    crud_get_email_for_dish exDB 7 = some "bob@x" ∧
    aliceUser.email ≠ "bob@x" ∧
    delete_dish exDB aliceUser { email := "alice@x", dish_id := 7 } =
      .ok { exDB with dishes := [] } := by
  refine ⟨rfl, by decide, by decide, by rfl⟩

/-- Claim C1 (amended): update_dish and delete_dish authorize against the
email supplied in the request payload only: a non-superuser whose email
differs from the payload email gets Forbidden, while any actor whose email
equals the payload email (and any superuser) passes the guard and the
operation succeeds on every existing dish, regardless of which restaurant
owns it; a superuser succeeds against any dish. -/
theorem C1_dish_authorization_by_payload_email (db : DBState) (actor : User)
    (del : DishDelete) (upd : DishUpdate) :
    (actor.role ≠ "superuser" → actor.email ≠ del.email →
      delete_dish db actor del =
        .error (.forbidden "You do not have permission to delete a dish for this email.")) ∧
    (actor.email = del.email → (∃ d ∈ db.dishes, d.id = del.dish_id) →
      delete_dish db actor del =
        .ok { db with dishes := db.dishes.filter (fun d => d.id != del.dish_id) }) ∧
    (actor.role = "superuser" → (∃ d ∈ db.dishes, d.id = del.dish_id) →
      delete_dish db actor del =
        .ok { db with dishes := db.dishes.filter (fun d => d.id != del.dish_id) }) ∧
    (actor.role ≠ "superuser" → actor.email ≠ upd.email →
      update_dish_route db actor upd =
        .error (.forbidden "You do not have permission to update a dish for this email.")) ∧
    (actor.email = upd.email → (∃ d ∈ db.dishes, d.id = upd.dish_id) →
      ∃ db1 d1, update_dish_route db actor upd = .ok (db1, d1)) ∧
    (actor.role = "superuser" → (∃ d ∈ db.dishes, d.id = upd.dish_id) →
      ∃ db1 d1, update_dish_route db actor upd = .ok (db1, d1)) := by
  have hfind : ∀ i : ℕ, (∃ d ∈ db.dishes, d.id = i) →
      ∃ d, crud_get_dish db i = some d := by
    intro i hex
    have : (db.dishes.find? (fun d => d.id == i)).isSome := by
      apply List.find?_isSome.mpr
      obtain ⟨d, hd, hid⟩ := hex
      exact ⟨d, hd, by simp [hid]⟩
    obtain ⟨d, hd⟩ := Option.isSome_iff_exists.mp this
    exact ⟨d, hd⟩
  refine ⟨?_, ?_, ?_, ?_, ?_, ?_⟩
  · intro h1 h2
    simp [delete_dish, beq_eq_false_iff_ne.mpr h1, beq_eq_false_iff_ne.mpr h2]
  · intro h2 hex
    obtain ⟨d, hd⟩ := hfind del.dish_id hex
    simp [delete_dish, beq_iff_eq.mpr h2, crud_delete_dish, hd]
  · intro h1 hex
    obtain ⟨d, hd⟩ := hfind del.dish_id hex
    simp [delete_dish, beq_iff_eq.mpr h1, crud_delete_dish, hd]
  · intro h1 h2
    simp [update_dish_route, beq_eq_false_iff_ne.mpr h1, beq_eq_false_iff_ne.mpr h2]
  · intro h2 hex
    obtain ⟨d, hd⟩ := hfind upd.dish_id hex
    unfold update_dish_route
    rw [if_pos]
    · unfold crud_update_dish
      rw [hd]
      exact ⟨_, _, rfl⟩
    · simp [beq_iff_eq.mpr h2]
  · intro h1 hex
    obtain ⟨d, hd⟩ := hfind upd.dish_id hex
    unfold update_dish_route
    rw [if_pos]
    · unfold crud_update_dish
      rw [hd]
      exact ⟨_, _, rfl⟩
    · simp [beq_iff_eq.mpr h1]

/-- Claim C1, witness: the amended theorem applied to alice deleting the
dish of bob with her own email in the payload. -/
theorem C1_witness :
    delete_dish exDB aliceUser { email := "alice@x", dish_id := 7 } =
      .ok { exDB with dishes := exDB.dishes.filter (fun d => d.id != 7) } :=
  (C1_dish_authorization_by_payload_email exDB aliceUser
      { email := "alice@x", dish_id := 7 }
      { email := "alice@x", dish_id := 7, restaurant_id := none, name := none,
        description := none, price := none, photo := none, extra := none }).2.1
    rfl ⟨bobDish, by decide, by decide⟩

/-! ## Claim C2 -/

/-- An element is a member of the namespace list produced by the
create-if-absent step of registration. -/
theorem mem_provisioned (l : List ℕ) (r : ℕ) :
    r ∈ (if l.contains r then l else l ++ [r]) := by
  by_cases h : l.contains r = true
  · rw [if_pos h]
    simpa using h
  · rw [if_neg h]
    simp

/-- Registration with an email that is already present fails with the
duplicate-email error (the presence check is the first step, before any
write). -/
theorem register_duplicate (db : DBState) (email hpw : String) (uid pid : ℕ)
    (u : User) (h : findUserByEmail db email = some u) :
    register_user db email hpw uid pid =
      .error (.badRequest "Email already registered") := by
  unfold register_user crud_create_user_and_profile
  rw [h]

/-- Claim C2: registering a fresh email creates exactly one User with role
restaurant and approved false, exactly one UserProfile with tables_amount 0,
and exactly one Restaurant with the default name, rating 0.0, currency USD
and tables_amount 0; the profile restaurant_id is backfilled to the new
restaurant id and a photo namespace for that id is provisioned; a second
registration with the same email fails with the duplicate-email error before
any write (the error carries no new state). -/
theorem C2_register_restaurant_owner (db : DBState) (email hpw hpw2 : String)
    (uid pid uid2 pid2 : ℕ) (hfresh : findUserByEmail db email = none) :
    ∃ db1 user profile restaurant,
      register_user db email hpw uid pid = .ok (db1, user) ∧
      user.email = email ∧ user.role = "restaurant" ∧ user.approved = false ∧
      db1.users = db.users ++ [user] ∧
      db1.profiles = db.profiles ++ [profile] ∧
      db1.restaurants = db.restaurants ++ [restaurant] ∧
      profile.tables_amount = 0 ∧
      restaurant.name = "Default Restaurant Name" ∧
      restaurant.rating = 0 ∧
      restaurant.currency = "USD" ∧
      restaurant.tables_amount = 0 ∧
      profile.restaurant_id = some restaurant.id ∧
      restaurant.id ∈ db1.photoNamespaces ∧
      register_user db1 email hpw2 uid2 pid2 =
        .error (.badRequest "Email already registered") := by
  unfold register_user crud_create_user_and_profile
  rw [hfresh]
  refine ⟨_, _, _, _, rfl, rfl, rfl, rfl, rfl, rfl, rfl, rfl, rfl, rfl, rfl,
    rfl, rfl, ?_, ?_⟩
  · exact mem_provisioned _ _
  · apply register_duplicate
    unfold findUserByEmail at hfresh ⊢
    simp [List.find?_append, hfresh]
    rfl

/-- Claim C2, witness: the registration theorem applied to a fresh email on
the empty state. -/
theorem C2_witness :
    ∃ db1 user profile restaurant,
      register_user emptyDB "chef@x" "hp" 10 11 = .ok (db1, user) ∧
      user.email = "chef@x" ∧ user.role = "restaurant" ∧ user.approved = false ∧
      db1.users = emptyDB.users ++ [user] ∧
      db1.profiles = emptyDB.profiles ++ [profile] ∧
      db1.restaurants = emptyDB.restaurants ++ [restaurant] ∧
      profile.tables_amount = 0 ∧
      restaurant.name = "Default Restaurant Name" ∧
      restaurant.rating = 0 ∧
      restaurant.currency = "USD" ∧
      restaurant.tables_amount = 0 ∧
      profile.restaurant_id = some restaurant.id ∧
      restaurant.id ∈ db1.photoNamespaces ∧
      register_user db1 "chef@x" "hp2" 12 13 =
        .error (.badRequest "Email already registered") :=
  C2_register_restaurant_owner emptyDB "chef@x" "hp" "hp2" 10 11 12 13 (by decide)

/-! ## Claim C3 -/

/-- Introduction rule for the embedded pydantic price constraint. -/
theorem condecimal_10_2_intro (q : ℚ) (h1 : (q * 100).den = 1)
    (h2 : (q * 100).num.natAbs < 10 ^ 10) : condecimal_10_2 q = true := by
  unfold condecimal_10_2 hasDecimalPlaces
  have h100 : q * (10 : ℚ) ^ 2 = q * 100 := by norm_num
  rw [h100, h1]
  simpa using h2

/-- The dish inserted by `crud_create_dish` carries the two-decimal
quantization of the requested price and the restaurant id it was called
with, and is appended to the stored dishes. -/
theorem crud_create_dish_ok (db : DBState) (rid cid : ℕ) (nm ds : String)
    (p : ℚ) (ph : Option String) (ex : Option Extra) (db1 : DBState)
    (dish : Dish) (h : crud_create_dish db rid cid nm ds p ph ex = .ok (db1, dish)) :
    dish.price = quantize2 p ∧ dish.restaurant_id = rid ∧
    db1.dishes = db.dishes ++ [dish] := by
  unfold crud_create_dish at h
  split at h
  · simp at h
  · split at h
    · simp at h
    · simp only [Except.ok.injEq, Prod.mk.injEq] at h
      obtain ⟨h1, h2⟩ := h
      subst h2
      subst h1
      exact ⟨rfl, rfl, rfl⟩

/-- A successful `create_new_dish` stores the restaurant id chosen by
`pick_restaurant_id` and the quantized price. -/
theorem create_new_dish_ok (db : DBState) (u : User) (dc : DishCreate)
    (db1 : DBState) (dish : Dish) (h : create_new_dish db u dc = .ok (db1, dish)) :
    dish.price = quantize2 dc.price ∧
    pick_restaurant_id db u dc = .ok dish.restaurant_id := by
  unfold create_new_dish at h
  split at h
  · cases hp : pick_restaurant_id db u dc with
    | error e =>
      rw [hp] at h
      simp at h
    | ok rid =>
      simp only [hp] at h
      cases hcd : crud_create_dish db rid dc.category_id dc.name dc.description
          dc.price dc.photo dc.extra with
      | error m =>
        simp only [hcd] at h
        simp at h
      | ok res =>
        simp only [hcd] at h
        simp only [Except.ok.injEq] at h
        subst h
        obtain ⟨hpr, hrid, -⟩ := crud_create_dish_ok _ _ _ _ _ _ _ _ _ _ hcd
        exact ⟨hpr, congrArg Except.ok hrid.symm⟩
  · simp at h

/-- Every price returned by the dish-listing endpoint is a fixpoint of the
two-decimal normalization. -/
theorem get_dishes_by_email_normalized (db : DBState) (v : User) (email : String)
    (ds : List Dish) (h : get_dishes_by_email db v email = .ok ds) :
    ∀ d ∈ ds, quantize2 d.price = d.price := by
  unfold get_dishes_by_email at h
  split at h
  case isFalse => simp at h
  case isTrue =>
    cases hp : crud_get_user_profile_by_email db email with
    | none =>
      simp only [hp] at h
      exact absurd h (by simp)
    | some profile =>
      simp only [hp] at h
      cases hrid : profile.restaurant_id with
      | none =>
        simp only [hrid] at h
        exact absurd h (by simp)
      | some rid =>
        simp only [hrid] at h
        cases hr : crud_get_restaurant_by_id db rid with
        | none =>
          simp only [hr] at h
          exact absurd h (by simp)
        | some restaurant =>
          simp only [hr] at h
          simp only [Except.ok.injEq] at h
          subst h
          intro d hd
          obtain ⟨x, -, hx⟩ := List.mem_map.mp hd
          rw [← hx]
          exact quantize2_idem x.price

/-- Claim C3, counterexample: the price 1.005 has four decimal digits and
the claim requires create_dish to accept it (and round it half-up to 1.01),
but the request schema `condecimal(max_digits=10, decimal_places=2)` rejects
it with a validation error before the route body runs. -/
theorem C3_counterexample :
    hasDecimalPlaces 4 (1005/1000 : ℚ) = true ∧
    DishCreate.validate
      { email := "alice@x", restaurant_id := 1, category_id := 1,
        name := "Soup", description := "d", price := 1005/1000, photo := none,
        extra := none } = .error (.unprocessable "decimal_places") := by
  have hc : condecimal_10_2 ((1005 : ℚ)/1000) = false := by
    unfold condecimal_10_2 hasDecimalPlaces
    norm_num
  constructor
  · unfold hasDecimalPlaces
    norm_num
  · unfold DishCreate.validate
    rw [hc]
    rfl

/-- Claim C3 (amended): the dish-create schema accepts exactly the prices
with at most two decimal places (within ten digits); an accepted price is
stored unchanged by create_dish (the two-decimal half-even quantization is
the identity on it), every price returned by the listing endpoint is a
fixpoint of the normalization, and the normalization is idempotent on all
rationals. -/
theorem C3_price_round_trip (db : DBState) (u v : User) (dc : DishCreate)
    (email : String) (q : ℚ) (h : condecimal_10_2 dc.price = true) :
    DishCreate.validate dc = .ok dc ∧
    (∀ db1 dish, create_new_dish db u dc = .ok (db1, dish) →
      dish.price = dc.price) ∧
    (∀ ds, get_dishes_by_email db v email = .ok ds →
      ∀ d ∈ ds, quantize2 d.price = d.price) ∧
    quantize2 (quantize2 q) = quantize2 q := by
  refine ⟨?_, ?_, ?_, quantize2_idem q⟩
  · unfold DishCreate.validate
    rw [h]
    rfl
  · intro db1 dish hok
    rw [(create_new_dish_ok db u dc db1 dish hok).1]
    exact quantize2_eq_self _ (condecimal_10_2_hasDecimalPlaces _ h)
  · exact fun ds hds => get_dishes_by_email_normalized db v email ds hds

/-- Claim C3, witness: the superuser creates a dish with the two-decimal
price 9.95 on the example state; the stored price is exactly 9.95. -/
theorem C3_witness :
    DishCreate.validate
      { email := "admin@x", restaurant_id := 1, category_id := 1,
        name := "Cake", description := "d", price := 199/20, photo := none,
        extra := none } = .ok
      { email := "admin@x", restaurant_id := 1, category_id := 1,
        name := "Cake", description := "d", price := 199/20, photo := none,
        extra := none } ∧
    (∀ db1 dish, create_new_dish exDB suUser
      { email := "admin@x", restaurant_id := 1, category_id := 1,
        name := "Cake", description := "d", price := 199/20, photo := none,
        extra := none } = .ok (db1, dish) → dish.price = 199/20) ∧
    (∀ ds, get_dishes_by_email exDB bobUser "bob@x" = .ok ds →
      ∀ d ∈ ds, quantize2 d.price = d.price) ∧
    quantize2 (quantize2 (1/3)) = quantize2 (1/3) :=
  C3_price_round_trip exDB suUser bobUser _ "bob@x" (1/3)
    (condecimal_10_2_intro _ (by norm_num) (by norm_num))

/-! ## Claim C4 -/

/-- After the token row with primary key `t` has been deleted, no lookup of
`t` succeeds. -/
theorem find?_token_filter (l : List ResetToken) (t : String) :
    (l.filter (fun r => r.token != t)).find? (fun r => r.token == t) = none := by
  apply List.find?_eq_none.mpr
  intro x hx
  have hpx := List.of_mem_filter hx
  simp at hpx ⊢
  exact hpx

/-- A redemption attempt with a token string that is not in the store fails
with the invalid-token error and leaves the state unchanged. -/
theorem reset_password_no_token (db : DBState) (t : String) (now : ℤ)
    (hp : String) (h : db.reset_tokens.find? (fun rt => rt.token == t) = none) :
    reset_password db t now hp = (db, .error (.badRequest "Invalid token")) := by
  unfold reset_password
  rw [h]

/-- A successful redemption removes the redeemed token from the store. -/
theorem reset_password_ok_state (db : DBState) (t : String) (now : ℤ)
    (hp : String) (db1 : DBState) (e : String)
    (h : reset_password db t now hp = (db1, .ok e)) :
    db1.reset_tokens = db.reset_tokens.filter (fun r => r.token != t) := by
  unfold reset_password at h
  cases hf : db.reset_tokens.find? (fun rt => rt.token == t) with
  | none =>
    simp only [hf] at h
    simp at h
  | some rt =>
    simp only [hf] at h
    by_cases hexp : rt.expiry_time < now
    · rw [if_pos hexp] at h
      simp at h
    · rw [if_neg hexp] at h
      cases hu : findUserById db rt.user_id with
      | none =>
        simp only [hu] at h
        simp at h
      | some user =>
        simp only [hu] at h
        simp only [Prod.mk.injEq] at h
        obtain ⟨hdb, -⟩ := h
        rw [← hdb]

/-- Claim C4: the consumed and expired states of a reset token are
absorbing.  A successfully redeemed token fails with the invalid-token error
on any second attempt; a redemption attempted strictly after the expiry
instant fails with the token-expired error and deletes the token, after
which every further attempt fails with the invalid-token error; and a token
issued by the reset-request endpoint expires exactly one hour after
issuance. -/
theorem C4_reset_token_absorbing (db : DBState) (t : String) (now now2 : ℤ)
    (hp1 hp2 hp3 : String) :
    (∀ db1 e, reset_password db t now hp1 = (db1, .ok e) →
      reset_password db1 t now2 hp2 = (db1, .error (.badRequest "Invalid token"))) ∧
    (∀ rt, db.reset_tokens.find? (fun r => r.token == t) = some rt →
      rt.expiry_time < now →
      reset_password db t now hp1 =
        ({ db with reset_tokens := db.reset_tokens.filter (fun r => r.token != t) },
          .error (.badRequest "Token has expired")) ∧
      reset_password
          { db with reset_tokens := db.reset_tokens.filter (fun r => r.token != t) }
          t now2 hp3 =
        ({ db with reset_tokens := db.reset_tokens.filter (fun r => r.token != t) },
          .error (.badRequest "Invalid token"))) ∧
    (∀ email u db2, findUserByEmail db email = some u →
      request_password_reset db email t now = .ok db2 →
      db2.reset_tokens = db.reset_tokens ++
        [{ token := t, user_id := u.id, expiry_time := now + 3600 }]) := by
  refine ⟨?_, ?_, ?_⟩
  · intro db1 e h
    have hs := reset_password_ok_state db t now hp1 db1 e h
    apply reset_password_no_token
    rw [hs]
    exact find?_token_filter _ _
  · intro rt hrt hexp
    constructor
    · unfold reset_password
      simp only [hrt]
      rw [if_pos hexp]
    · apply reset_password_no_token
      exact find?_token_filter _ _
  · intro email u db2 hu hreq
    unfold request_password_reset at hreq
    rw [hu] at hreq
    simp only [Except.ok.injEq] at hreq
    rw [← hreq]
    rfl

/-- Claim C4, witness: on the example state with one token for alice
expiring at 4600, a redemption at 5000 fails as expired and deletes the
token, a further attempt at 6000 fails as invalid, and the issuance endpoint
stamps expiry 4600 = 1000 + 3600. -/
theorem C4_witness :
    (reset_password exDBtok "tok1" 5000 "hp1" =
      ({ exDBtok with
          reset_tokens := exDBtok.reset_tokens.filter (fun r => r.token != "tok1") },
        .error (.badRequest "Token has expired")) ∧
      reset_password
          { exDBtok with
            reset_tokens := exDBtok.reset_tokens.filter (fun r => r.token != "tok1") }
          "tok1" 6000 "hp3" =
        ({ exDBtok with
            reset_tokens := exDBtok.reset_tokens.filter (fun r => r.token != "tok1") },
          .error (.badRequest "Invalid token"))) ∧
    ∀ db2, request_password_reset exDB "alice@x" "tok1" 1000 = .ok db2 →
      db2.reset_tokens = exDB.reset_tokens ++
        [{ token := "tok1", user_id := 2, expiry_time := 4600 }] :=
  ⟨(C4_reset_token_absorbing exDBtok "tok1" 5000 6000 "hp1" "hp2" "hp3").2.1
      { token := "tok1", user_id := 2, expiry_time := 4600 } (by rfl) (by decide),
   fun db2 h =>
    (C4_reset_token_absorbing exDB "tok1" 1000 0 "hp1" "hp2" "hp3").2.2
      "alice@x" aliceUser db2 (by rfl) h⟩

/-! ## Claim C5 -/

/-- The rendered rating of 9.9 is exactly the string 9.9. -/
theorem formatRating1_99_10 : formatRating1 (99/10) = "9.9" := by
  unfold formatRating1
  rw [(by norm_num : (99/10 : ℚ) * 10 = ((99 : ℤ) : ℚ)), Rat.num_intCast]
  rfl

/-- Applying a patch that carries a rating stores exactly that rating on
the profile row. -/
theorem applyProfilePatch_rating (profile : UserProfile)
    (pu : UserProfileUpdate) (v : ℚ) (hr : pu.rating = some v) :
    (applyProfilePatch profile pu).rating = some v := by
  unfold applyProfilePatch
  rw [hr]
  cases pu.restaurant_name <;> cases pu.restaurant_reviews <;>
    cases pu.restaurant_photo <;> cases pu.telegram <;>
    cases pu.restaurant_currency <;> cases pu.tables_amount <;> rfl

/-- When the patch carries a rating, the profile returned by the CRUD update
stores exactly that (already rounded) rating. -/
theorem crud_update_profile_rating (db : DBState) (email : String)
    (pu : UserProfileUpdate) (v : ℚ) (hr : pu.rating = some v)
    (db1 : DBState) (p : UserProfile)
    (h : crud_update_user_profile_by_email db email pu = some (db1, p)) :
    p.rating = some v := by
  unfold crud_update_user_profile_by_email at h
  cases hp : crud_get_user_profile_by_email db email with
  | none =>
    simp only [hp] at h
    exact absurd h (by simp)
  | some profile =>
    simp only [hp] at h
    cases hrid : profile.restaurant_id with
    | none =>
      simp only [hrid, Option.some.injEq, Prod.mk.injEq] at h
      obtain ⟨-, hp7⟩ := h
      rw [← hp7]
      exact applyProfilePatch_rating profile pu v hr
    | some rid =>
      simp only [hrid, Option.some.injEq, Prod.mk.injEq] at h
      obtain ⟨-, hp7⟩ := h
      rw [← hp7]
      exact applyProfilePatch_rating profile pu v hr

/-- The CRUD profile update succeeds whenever the profile exists. -/
theorem crud_update_profile_isSome (db : DBState) (email : String)
    (pu : UserProfileUpdate) (profile : UserProfile)
    (hp : crud_get_user_profile_by_email db email = some profile) :
    ∃ db1 p, crud_update_user_profile_by_email db email pu = some (db1, p) := by
  unfold crud_update_user_profile_by_email
  simp only [hp]
  cases hrid : profile.restaurant_id with
  | none =>
    simp only [hrid]
    exact ⟨_, _, rfl⟩
  | some rid =>
    simp only [hrid]
    exact ⟨_, _, rfl⟩

/-- Claim C5 (amended): a supplied rating is first rounded to one decimal
place by the schema validator and only the rounded value is range checked
against [0.0, 9.9]: the update fails with the invalid-argument error exactly
when the rounded rating is out of range, and otherwise the rounded rating is
stored.  Consequently 9.95, which arrives as a binary64 double strictly
below 9.95 and rounds to 9.9, succeeds and round-trips as the string 9.9
(the claim expected it to fail); 9.9 succeeds and round-trips as 9.9; -0.1
rounds to -0.1 and fails. -/
theorem C5_rating_validation (db : DBState) (actor : User) (email : String)
    (pu : UserProfileUpdate) (r : ℚ) (hr : pu.rating = some r)
    (hauth : actor.role = "superuser" ∨ actor.email = email) :
    (pyRound1 r < 0 ∨ (99 : ℚ)/10 < pyRound1 r →
      update_profile_by_email db actor email pu =
        .error (.badRequest "Rating value out of range")) ∧
    (¬(pyRound1 r < 0 ∨ (99 : ℚ)/10 < pyRound1 r) →
      (∀ db1 p, update_profile_by_email db actor email pu = .ok (db1, p) →
        p.rating = some (pyRound1 r)) ∧
      (∀ profile, crud_get_user_profile_by_email db email = some profile →
        ∃ db1 p, update_profile_by_email db actor email pu = .ok (db1, p))) ∧
    pyRound1 json9_95 = 99/10 ∧ pyRound1 json9_9 = 99/10 ∧
    pyRound1 jsonNeg0_1 = -1/10 ∧ formatRating1 (99/10) = "9.9" := by
  have hguard : (actor.role == "superuser" || actor.email == email) = true := by
    rcases hauth with h | h
    · simp [h]
    · simp [h]
  have hv : (pu.validate_rating).rating = some (pyRound1 r) := by
    unfold UserProfileUpdate.validate_rating
    rw [hr]
    rfl
  refine ⟨?_, ?_, pyRound1_json9_95, pyRound1_json9_9, pyRound1_jsonNeg0_1,
    formatRating1_99_10⟩
  · intro hout
    unfold update_profile_by_email
    rw [if_pos hguard]
    simp only [hv]
    rw [if_pos hout]
  · intro hin
    constructor
    · intro db1 p h
      unfold update_profile_by_email at h
      rw [if_pos hguard] at h
      simp only [hv] at h
      rw [if_neg hin] at h
      cases hc : crud_update_user_profile_by_email db email pu.validate_rating with
      | none =>
        rw [hc] at h
        simp at h
      | some res =>
        rw [hc] at h
        simp only [Except.ok.injEq] at h
        subst h
        exact crud_update_profile_rating db email pu.validate_rating
          (pyRound1 r) hv db1 p hc
    · intro profile hp
      obtain ⟨db1, p, hc⟩ :=
        crud_update_profile_isSome db email pu.validate_rating profile hp
      refine ⟨db1, p, ?_⟩
      unfold update_profile_by_email
      rw [if_pos hguard]
      simp only [hv]
      rw [if_neg hin, hc]

/-- Claim C5, counterexample: submitting the rating 9.95 (the binary64
value the JSON literal parses to), the claim demands an invalid-argument
failure, but the update succeeds: the schema validator first rounds it to
9.9, the range check passes, and 9.9 is stored on both the profile and the
linked restaurant row. -/
theorem C5_counterexample :
    update_profile_by_email exDB aliceUser "alice@x"
      { restaurant_name := none, restaurant_reviews := none,
        restaurant_photo := none, telegram := none, rating := some json9_95,
        restaurant_currency := none, tables_amount := none } =
      .ok ({ exDB with
          profiles := [{ aliceProfile with rating := some (99/10) }, bobProfile],
          restaurants := [{ restaurant1 with rating := 99/10 }, restaurant2] },
        { aliceProfile with rating := some (99/10) }) := by
  have hv : UserProfileUpdate.validate_rating
      { restaurant_name := none, restaurant_reviews := none,
        restaurant_photo := none, telegram := none, rating := some json9_95,
        restaurant_currency := none, tables_amount := none } =
      { restaurant_name := none, restaurant_reviews := none,
        restaurant_photo := none, telegram := none, rating := some (99/10),
        restaurant_currency := none, tables_amount := none } := by
    unfold UserProfileUpdate.validate_rating
    simp [pyRound1_json9_95]
  unfold update_profile_by_email
  rw [if_pos (by decide)]
  simp only [hv]
  rw [if_neg (by norm_num : ¬((99 : ℚ)/10 < 0 ∨ (99 : ℚ)/10 < 99/10))]
  rfl

/-- Claim C5, witness: the amended theorem applied to the rating 9.9 on the
example state; the update goes through. -/
theorem C5_witness :
    ∃ db1 p, update_profile_by_email exDB aliceUser "alice@x"
      { restaurant_name := none, restaurant_reviews := none,
        restaurant_photo := none, telegram := none, rating := some json9_9,
        restaurant_currency := none, tables_amount := none } = .ok (db1, p) :=
  ((C5_rating_validation exDB aliceUser "alice@x"
      { restaurant_name := none, restaurant_reviews := none,
        restaurant_photo := none, telegram := none, rating := some json9_9,
        restaurant_currency := none, tables_amount := none } json9_9 rfl
      (Or.inr rfl)).2.1
    (by rw [pyRound1_json9_9]; norm_num)).2 aliceProfile (by rfl)

/-! ## Claim C6 -/

/-- Claim C6, on the code as written: the authorization guard of
change_password admits exactly the target user themselves and superusers,
but every authorized request then fails with the AttributeError surfaced by
reading `request.old_password`, a field the active ChangePasswordRequest
schema does not define; the hash is never overwritten. -/
theorem C6_change_password (db : DBState) (actor : User)
    (req : ChangePasswordRequest) (hash : String → String) :
    (actor.email ≠ req.email → actor.role ≠ "superuser" →
      change_password db actor req hash =
        .error (.forbidden "Not authorized to change this password")) ∧
    (actor.email = req.email ∨ actor.role = "superuser" →
      ∀ u, findUserByEmail db req.email = some u →
        change_password db actor req hash =
          .error (.internal "AttributeError: old_password")) := by
  constructor
  · intro h1 h2
    unfold change_password
    rw [if_pos]
    simp [Bool.and_eq_true, bne_iff_ne]
    exact ⟨h1, h2⟩
  · intro hor u hu
    unfold change_password
    rw [if_neg]
    · simp only [hu]
      rfl
    · simp only [Bool.and_eq_true, bne_iff_ne, not_and]
      intro hc
      rcases hor with h1 | h1
      · exact absurd h1 hc
      · exact fun hx => hx h1

/-- Claim C6, witness: the superuser changes the password of alice; the
request is authorized and the endpoint fails with the internal
AttributeError instead of overwriting the hash. -/
theorem C6_witness :
    change_password exDB suUser { email := "alice@x", new_password := "npw" }
      (fun s => s) = .error (.internal "AttributeError: old_password") :=
  (C6_change_password exDB suUser
      { email := "alice@x", new_password := "npw" } (fun s => s)).2
    (Or.inr rfl) aliceUser (by rfl)

/-! ## Claim C7 -/

/-- Field-by-field behavior of the dish patch: for a non-superuser the
restaurant_id field is never applied; for a superuser a provided
restaurant_id is applied; every other provided field is applied (price
normalized to two decimals). -/
theorem applyDishPatch_spec (dish : Dish) (u : User) (rid? : Option ℕ)
    (nm ds : Option String) (pr : Option ℚ) (ph : Option String)
    (ex : Option Extra) :
    ((u.role == "superuser") = false →
      (applyDishPatch dish u rid? nm ds pr ph ex).restaurant_id = dish.restaurant_id) ∧
    (∀ r, rid? = some r → (u.role == "superuser") = true →
      (applyDishPatch dish u rid? nm ds pr ph ex).restaurant_id = r) ∧
    (∀ v, nm = some v → (applyDishPatch dish u rid? nm ds pr ph ex).name = v) ∧
    (∀ v, ds = some v → (applyDishPatch dish u rid? nm ds pr ph ex).description = v) ∧
    (∀ v, pr = some v → (applyDishPatch dish u rid? nm ds pr ph ex).price = quantize2 v) ∧
    (∀ v, ph = some v → (applyDishPatch dish u rid? nm ds pr ph ex).photo = some v) ∧
    (∀ v, ex = some v → (applyDishPatch dish u rid? nm ds pr ph ex).extra = some v) := by
  cases rid? <;> cases nm <;> cases ds <;> cases pr <;> cases ph <;> cases ex <;>
    refine ⟨?_, ?_, ?_, ?_, ?_, ?_, ?_⟩ <;> intros <;>
    simp_all [applyDishPatch] <;> split <;> rfl

/-- `crud_update_dish` on an existing dish returns the patched dish and
stores it. -/
theorem crud_update_dish_found (db : DBState) (dish_id : ℕ) (u : User)
    (rid? : Option ℕ) (nm ds : Option String) (pr : Option ℚ)
    (ph : Option String) (ex : Option Extra) (dish : Dish)
    (hfind : crud_get_dish db dish_id = some dish) :
    crud_update_dish db dish_id u rid? nm ds pr ph ex =
      .ok ({ db with dishes := db.dishes.map (fun d =>
              if d.id == dish_id then applyDishPatch dish u rid? nm ds pr ph ex
              else d) },
           applyDishPatch dish u rid? nm ds pr ph ex) := by
  unfold crud_update_dish
  rw [hfind]

/-- Claim C7: on update_dish, a patch by a restaurant-role (non-superuser)
actor that includes restaurant_id leaves the restaurant_id of the dish
unchanged with no error raised, while every other provided field (name,
description, price, photo, extra) is applied; the same patch by a superuser
applies the restaurant_id field. -/
theorem C7_update_restaurant_id_scope (db : DBState) (upd : DishUpdate)
    (d : Dish) (hfind : crud_get_dish db upd.dish_id = some d) :
    (∀ actor : User, actor.role ≠ "superuser" → actor.email = upd.email →
      ∃ db1 d1, update_dish_route db actor upd = .ok (db1, d1) ∧
        d1.restaurant_id = d.restaurant_id ∧
        (∀ v, upd.name = some v → d1.name = v) ∧
        (∀ v, upd.description = some v → d1.description = v) ∧
        (∀ v, upd.price = some v → d1.price = quantize2 v) ∧
        (∀ v, upd.photo = some v → d1.photo = some v) ∧
        (∀ v, upd.extra = some v → d1.extra = some v)) ∧
    (∀ actor : User, actor.role = "superuser" →
      ∀ rid, upd.restaurant_id = some rid →
      ∃ db1 d1, update_dish_route db actor upd = .ok (db1, d1) ∧
        d1.restaurant_id = rid) := by
  constructor
  · intro actor hrole hemail
    have hbe : (actor.role == "superuser") = false := beq_eq_false_iff_ne.mpr hrole
    refine ⟨{ db with dishes := db.dishes.map (fun x =>
        if x.id == upd.dish_id then
          applyDishPatch d actor upd.restaurant_id upd.name upd.description
            upd.price upd.photo upd.extra
        else x) },
      applyDishPatch d actor upd.restaurant_id upd.name upd.description
        upd.price upd.photo upd.extra, ?_, ?_, ?_, ?_, ?_, ?_, ?_⟩
    · unfold update_dish_route
      rw [if_pos (by simp [hemail])]
      rw [crud_update_dish_found db upd.dish_id actor upd.restaurant_id upd.name
        upd.description upd.price upd.photo upd.extra d hfind]
    · exact (applyDishPatch_spec d actor upd.restaurant_id upd.name
        upd.description upd.price upd.photo upd.extra).1 hbe
    · exact (applyDishPatch_spec d actor upd.restaurant_id upd.name
        upd.description upd.price upd.photo upd.extra).2.2.1
    · exact (applyDishPatch_spec d actor upd.restaurant_id upd.name
        upd.description upd.price upd.photo upd.extra).2.2.2.1
    · exact (applyDishPatch_spec d actor upd.restaurant_id upd.name
        upd.description upd.price upd.photo upd.extra).2.2.2.2.1
    · exact (applyDishPatch_spec d actor upd.restaurant_id upd.name
        upd.description upd.price upd.photo upd.extra).2.2.2.2.2.1
    · exact (applyDishPatch_spec d actor upd.restaurant_id upd.name
        upd.description upd.price upd.photo upd.extra).2.2.2.2.2.2
  · intro actor hrole rid hrid
    have hbe : (actor.role == "superuser") = true := beq_iff_eq.mpr hrole
    refine ⟨{ db with dishes := db.dishes.map (fun x =>
        if x.id == upd.dish_id then
          applyDishPatch d actor upd.restaurant_id upd.name upd.description
            upd.price upd.photo upd.extra
        else x) },
      applyDishPatch d actor upd.restaurant_id upd.name upd.description
        upd.price upd.photo upd.extra, ?_, ?_⟩
    · unfold update_dish_route
      rw [if_pos (by simp [hbe])]
      rw [crud_update_dish_found db upd.dish_id actor upd.restaurant_id upd.name
        upd.description upd.price upd.photo upd.extra d hfind]
    · exact (applyDishPatch_spec d actor upd.restaurant_id upd.name
        upd.description upd.price upd.photo upd.extra).2.1 rid hrid hbe

/-- Claim C7, witness: bob updates his dish 7 providing a new name and a
foreign restaurant_id 1; the update succeeds, the name is applied and the
restaurant_id stays 2. -/
theorem C7_witness :
    ∃ db1 d1, update_dish_route exDB bobUser
      { email := "bob@x", dish_id := 7, restaurant_id := some 1,
        name := some "Stew", description := none, price := none, photo := none,
        extra := none } = .ok (db1, d1) ∧
      d1.restaurant_id = 2 ∧
      (∀ v, (some "Stew" : Option String) = some v → d1.name = v) := by
  obtain ⟨db1, d1, hok, hrid, hnm, -, -, -, -⟩ :=
    (C7_update_restaurant_id_scope exDB
      { email := "bob@x", dish_id := 7, restaurant_id := some 1,
        name := some "Stew", description := none, price := none, photo := none,
        extra := none } bobDish (by rfl)).1 bobUser (by decide) rfl
  exact ⟨db1, d1, hok, hrid, hnm⟩

/-! ## Claim C8 -/

/-- Claim C8, counterexample: a token with an invalid signature for an
existing user is rejected with HTTP 403 (the authorization-denied error),
not with the 401 bad-credentials error the claim requires. -/
theorem C8_counterexample :
    get_current_user exDB
      { sigValid := false, expired := false,
        claims := { sub := some "alice@x", role := some "restaurant" } } =
      .error (.forbidden "Invalid authentication credentials") ∧
    (∀ msg, HttpError.forbidden "Invalid authentication credentials" ≠
      HttpError.unauthorized msg) := by
  constructor
  · rfl
  · intro msg
    simp

/-- Claim C8 (amended): token resolution fails with HTTP 403 (detail
"Invalid authentication credentials") when the signature is invalid, the
token is expired, or the subject claim is missing, and fails with the
bad-credentials HTTP 401 error (detail "Could not validate credentials")
exactly when the token decodes but its subject email has no User; on success
it returns that User, and a protected endpoint runs its handler (and with it
every authorization check) only after token resolution has succeeded. -/
theorem C8_token_resolution (db : DBState) (t : BearerToken) :
    (t.sigValid = false ∨ t.expired = true →
      get_current_user db t =
        .error (.forbidden "Invalid authentication credentials")) ∧
    (t.sigValid = true → t.expired = false → t.claims.sub = none →
      get_current_user db t =
        .error (.forbidden "Invalid authentication credentials")) ∧
    (∀ email, t.sigValid = true → t.expired = false →
      t.claims.sub = some email → findUserByEmail db email = none →
      get_current_user db t =
        .error (.unauthorized "Could not validate credentials")) ∧
    (∀ email u, t.sigValid = true → t.expired = false →
      t.claims.sub = some email → findUserByEmail db email = some u →
      get_current_user db t = .ok u) ∧
    (∀ (α : Type) (handler : User → Except HttpError α) (e : HttpError),
      get_current_user db t = .error e →
      protectedCall db t handler = .error e) := by
  refine ⟨?_, ?_, ?_, ?_, ?_⟩
  · intro h
    have hb : (t.sigValid && !t.expired) = false := by
      rcases h with h | h <;> simp [h]
    simp [get_current_user, jwt_decode, hb]
  · intro h1 h2 h3
    simp [get_current_user, jwt_decode, h1, h2, h3]
  · intro email h1 h2 h3 h4
    simp [get_current_user, jwt_decode, h1, h2, h3, h4]
  · intro email u h1 h2 h3 h4
    simp [get_current_user, jwt_decode, h1, h2, h3, h4]
  · intro α handler e h
    unfold protectedCall
    rw [h]

/-- Claim C8, witness: a valid token for alice resolves to alice, and a
protected endpoint called with a bad-signature token fails with the 403
resolution error before its handler runs. -/
theorem C8_witness :
    get_current_user exDB
      { sigValid := true, expired := false,
        claims := { sub := some "alice@x", role := some "restaurant" } } =
      .ok aliceUser ∧
    protectedCall exDB
      { sigValid := false, expired := false,
        claims := { sub := some "alice@x", role := some "restaurant" } }
      (fun u => (Except.ok u.email : Except HttpError String)) =
      .error (.forbidden "Invalid authentication credentials") :=
  ⟨(C8_token_resolution exDB
      { sigValid := true, expired := false,
        claims := { sub := some "alice@x", role := some "restaurant" } }).2.2.2.1
      "alice@x" aliceUser rfl rfl rfl (by rfl),
   (C8_token_resolution exDB
      { sigValid := false, expired := false,
        claims := { sub := some "alice@x", role := some "restaurant" } }).2.2.2.2
      String (fun u => Except.ok u.email) (.forbidden "Invalid authentication credentials")
      ((C8_token_resolution exDB
        { sigValid := false, expired := false,
          claims := { sub := some "alice@x", role := some "restaurant" } }).1
        (Or.inl rfl))⟩

/-! ## Claim C9 -/

/-- Shape of a successful user creation: the created user carries the
requested role, which passed the enumeration check, and is appended to the
user table. -/
theorem create_user_ok_shape (db : DBState) (email hpw role : String)
    (uid pid : ℕ) (db1 : DBState) (u : User)
    (h : crud_create_user_and_profile db email hpw role uid pid = .ok (db1, u)) :
    u.role = role ∧ (role = "superuser" ∨ role = "restaurant") ∧
    db1.users = db.users ++ [u] := by
  unfold crud_create_user_and_profile at h
  cases hf : findUserByEmail db email with
  | some w =>
    simp only [hf] at h
    exact absurd h (by simp)
  | none =>
    simp only [hf] at h
    by_cases hv : (role == "superuser" || role == "restaurant") = true
    · have hval : validate_role role = .ok role := by
        unfold validate_role
        rw [if_pos hv]
      simp only [hval] at h
      by_cases hr : (role == "restaurant") = true
      · rw [if_pos hr] at h
        simp only [Except.ok.injEq, Prod.mk.injEq] at h
        obtain ⟨hdb, hu⟩ := h
        subst hu
        refine ⟨rfl, ?_, ?_⟩
        · rcases (Bool.or_eq_true _ _).mp hv with h | h
          · exact Or.inl (beq_iff_eq.mp h)
          · exact Or.inr (beq_iff_eq.mp h)
        · rw [← hdb]
      · rw [if_neg hr] at h
        simp only [Except.ok.injEq, Prod.mk.injEq] at h
        obtain ⟨hdb, hu⟩ := h
        subst hu
        refine ⟨rfl, ?_, ?_⟩
        · rcases (Bool.or_eq_true _ _).mp hv with h | h
          · exact Or.inl (beq_iff_eq.mp h)
          · exact Or.inr (beq_iff_eq.mp h)
        · rw [← hdb]
    · have hval : validate_role role =
          .error "Role must be superuser or restaurant" := by
        unfold validate_role
        rw [if_neg hv]
      simp only [hval] at h
      exact absurd h (by simp)

/-- Claim C9: every user persisted by a creation operation has role
superuser or restaurant (creation preserves the all-roles-enumerated
invariant of the user table), creation with any other role value is
rejected, and the pydantic creation schema accepts exactly the two
enumerated roles. -/
theorem C9_role_enumeration (db : DBState) (email hpw role : String)
    (uid pid : ℕ) :
    (∀ db1 u, crud_create_user_and_profile db email hpw role uid pid = .ok (db1, u) →
      (u.role = "superuser" ∨ u.role = "restaurant") ∧
      ((∀ w ∈ db.users, w.role = "superuser" ∨ w.role = "restaurant") →
        ∀ w ∈ db1.users, w.role = "superuser" ∨ w.role = "restaurant")) ∧
    (role ≠ "superuser" → role ≠ "restaurant" →
      findUserByEmail db email = none →
      crud_create_user_and_profile db email hpw role uid pid =
        .error (.internal "Role must be superuser or restaurant")) ∧
    (UserCreate.validate_role role = .ok role ↔
      (role = "superuser" ∨ role = "restaurant")) := by
  refine ⟨?_, ?_, ?_⟩
  · intro db1 u h
    obtain ⟨hur, hrole, husers⟩ :=
      create_user_ok_shape db email hpw role uid pid db1 u h
    refine ⟨by rw [hur]; exact hrole, ?_⟩
    intro hinv w hw
    rw [husers] at hw
    rcases List.mem_append.mp hw with hw | hw
    · exact hinv w hw
    · have : w = u := List.mem_singleton.mp hw
      subst this
      rw [hur]
      exact hrole
  · intro h1 h2 hf
    have hv : (role == "superuser" || role == "restaurant") = false := by
      simp [beq_eq_false_iff_ne.mpr h1, beq_eq_false_iff_ne.mpr h2]
    have hval : validate_role role =
        .error "Role must be superuser or restaurant" := by
      unfold validate_role
      rw [if_neg (by simp [hv])]
    unfold crud_create_user_and_profile
    rw [hf]
    simp only [hval]
  · unfold UserCreate.validate_role
    by_cases hv : (role == "superuser" || role == "restaurant") = true
    · rw [if_pos hv]
      have hd : role = "superuser" ∨ role = "restaurant" := by
        rcases (Bool.or_eq_true _ _).mp hv with h | h
        · exact Or.inl (beq_iff_eq.mp h)
        · exact Or.inr (beq_iff_eq.mp h)
      simp [hd]
    · rw [if_neg hv]
      simp only [Bool.or_eq_true, beq_iff_eq, not_or] at hv
      constructor
      · intro h
        exact absurd h (by simp)
      · intro h
        exact absurd h (by simpa using hv)

/-- Claim C9, witness: creating a user with the role string admin is
rejected, and the schema validator accepts the restaurant role. -/
theorem C9_witness :
    crud_create_user_and_profile emptyDB "root@x" "h" "admin" 1 2 =
      .error (.internal "Role must be superuser or restaurant") ∧
    (UserCreate.validate_role "restaurant" = .ok "restaurant" ↔
      ("restaurant" = "superuser" ∨ "restaurant" = "restaurant")) :=
  ⟨(C9_role_enumeration emptyDB "root@x" "h" "admin" 1 2).2.1
      (by decide) (by decide) rfl,
   (C9_role_enumeration emptyDB "root@x" "h" "restaurant" 1 2).2.2⟩

/-! ## Claim C10 -/

/-- For a non-superuser the picked restaurant id always comes from the
profile of the caller. -/
theorem pick_restaurant_id_nonsuper (db : DBState) (u : User) (dc : DishCreate)
    (rid : ℕ) (hrole : (u.role == "superuser") = false)
    (h : pick_restaurant_id db u dc = .ok rid) :
    ∃ p, crud_get_user_profile_by_email db u.email = some p ∧
      p.restaurant_id = some rid := by
  unfold pick_restaurant_id at h
  rw [hrole] at h
  simp only [Bool.false_eq_true, if_false] at h
  cases hp : crud_get_user_profile_by_email db u.email with
  | none =>
    simp only [hp] at h
    exact absurd h (by simp)
  | some p =>
    simp only [hp] at h
    cases hr : p.restaurant_id with
    | none =>
      simp only [hr] at h
      exact absurd h (by simp)
    | some r =>
      simp only [hr] at h
      by_cases hz : (r == 0) = true
      · rw [if_pos hz] at h
        simp at h
      · rw [if_neg hz] at h
        simp only [Except.ok.injEq] at h
        subst h
        exact ⟨p, rfl, hr⟩

/-- Claim C10: a dish created by a non-superuser caller is always attached
to the restaurant linked to the caller profile, whatever restaurant_id the
payload carries; a missing profile or missing restaurant link yields an
error (no dish created); a superuser creation uses the restaurant_id
supplied in the payload. -/
theorem C10_create_dish_restaurant_scope (db : DBState) (actor : User)
    (dc : DishCreate) :
    (actor.role ≠ "superuser" →
      (∀ db1 dish, create_new_dish db actor dc = .ok (db1, dish) →
        ∃ p, crud_get_user_profile_by_email db actor.email = some p ∧
          p.restaurant_id = some dish.restaurant_id) ∧
      (actor.email = dc.email →
        crud_get_user_profile_by_email db actor.email = none →
        create_new_dish db actor dc =
          .error (.badRequest "Restaurant ID not found for the user profile.")) ∧
      (actor.email = dc.email →
        ∀ p, crud_get_user_profile_by_email db actor.email = some p →
        p.restaurant_id = none →
        create_new_dish db actor dc =
          .error (.badRequest "Restaurant ID not found for the user profile."))) ∧
    (actor.role = "superuser" →
      ∀ db1 dish, create_new_dish db actor dc = .ok (db1, dish) →
        dish.restaurant_id = dc.restaurant_id) := by
  constructor
  · intro hrole
    have hbe : (actor.role == "superuser") = false := beq_eq_false_iff_ne.mpr hrole
    refine ⟨?_, ?_, ?_⟩
    · intro db1 dish h
      exact pick_restaurant_id_nonsuper db actor dc dish.restaurant_id hbe
        (create_new_dish_ok db actor dc db1 dish h).2
    · intro hemail hp
      unfold create_new_dish
      rw [if_pos (by simp [hemail])]
      have hpick : pick_restaurant_id db actor dc =
          .error (.badRequest "Restaurant ID not found for the user profile.") := by
        unfold pick_restaurant_id
        rw [hbe]
        simp only [Bool.false_eq_true, if_false, hp]
      rw [hpick]
    · intro hemail p hp hr
      unfold create_new_dish
      rw [if_pos (by simp [hemail])]
      have hpick : pick_restaurant_id db actor dc =
          .error (.badRequest "Restaurant ID not found for the user profile.") := by
        unfold pick_restaurant_id
        rw [hbe]
        simp only [Bool.false_eq_true, if_false, hp, hr]
      rw [hpick]
  · intro hrole db1 dish h
    have hbe : (actor.role == "superuser") = true := beq_iff_eq.mpr hrole
    have hpick := (create_new_dish_ok db actor dc db1 dish h).2
    unfold pick_restaurant_id at hpick
    rw [if_pos hbe] at hpick
    simp only [Except.ok.injEq] at hpick
    exact hpick.symm

/-- Claim C10, witness: alice (restaurant role) creates a dish while
supplying restaurant_id 2 (the restaurant of bob) in the payload; the
created dish lands on restaurant 1, the one linked to her profile. -/
theorem C10_witness :
    ∃ p, crud_get_user_profile_by_email exDB aliceUser.email = some p ∧
      p.restaurant_id = some 1 := by
  obtain ⟨p, hp, hrid⟩ :=
    ((C10_create_dish_restaurant_scope exDB aliceUser
      { email := "alice@x", restaurant_id := 2, category_id := 1,
        name := "Pie", description := "x", price := 5, photo := none,
        extra := none }).1 (by decide)).1 _ _ (by rfl)
  exact ⟨p, hp, by rw [hrid]⟩

end CafeApp
